import Mathlib

/-!
Shallow embedding of the Real-time Trading Analytics Automation engine
(`src/trading_analytics_automation_final.py` and
`src/trading_analytics_automation_fixed.py`).

Trades are rows of the external `trades` table; numeric SQL values are
modelled as rationals, nullable columns as `Option`.  SQL `SQRT` is a host
function of the runtime, so every definition that uses it is parametrised
over a function `sq : ℚ → ℚ`; the guard structure around each `SQRT` call
is translated literally from the source.  Each derivation is the SQL
`SELECT` of the corresponding `update_*` method, and the cycle functions
`process_new_trades` / `check_for_new_trades` mirror the Python control
flow, with an sqlite transaction modelled as a working copy of the
database that becomes durable exactly at a `conn.commit()`.
-/

namespace TradingAnalytics

/-- Sum of a list of rationals (SQL `SUM`). -/
def sumQ (xs : List ℚ) : ℚ := xs.foldr (· + ·) 0

/-- Average of a list of rationals (SQL `AVG` over a nonempty group;
`0` on the empty list, which no grouped query produces). -/
def avgQ (xs : List ℚ) : ℚ := sumQ xs / xs.length

/-- Maximum of a list of rationals (SQL `MAX` over a nonempty group). -/
def maxQ (xs : List ℚ) : ℚ := xs.foldr max (xs.headD 0)

/-- Minimum of a list of rationals (SQL `MIN` over a nonempty group). -/
def minQ (xs : List ℚ) : ℚ := xs.foldr min (xs.headD 0)

/-- SQL `AVG` over a nullable column: `NULL` entries are ignored. -/
def avgSome (xs : List (Option ℚ)) : ℚ := avgQ (xs.filterMap id)

/-- SQL `AVG` returning `NULL` when every input is `NULL` (used for
columns such as `avg_loss_when_triggered_pct`). -/
def avgOpt (xs : List ℚ) : Option ℚ := if xs = [] then none else some (avgQ xs)

/-- Running totals of a list, as produced by
`SUM(profit_abs) OVER (ORDER BY close_date)`. -/
def prefixSums (acc : ℚ) : List ℚ → List ℚ
  | [] => []
  | x :: xs => (acc + x) :: prefixSums (acc + x) xs

/-- Insert an element into a list sorted by the boolean relation `r`
(`r x y` means `x` goes before `y`). -/
def insertBy {α : Type} (r : α → α → Bool) (x : α) : List α → List α
  | [] => [x]
  | y :: ys => if r x y then x :: y :: ys else y :: insertBy r x ys

/-- Insertion sort by the boolean relation `r`; models SQL `ORDER BY`. -/
def sortBy {α : Type} (r : α → α → Bool) : List α → List α
  | [] => []
  | x :: xs => insertBy r x (sortBy r xs)

/-- Replace the element at position `i`, if any (sqlite
`UPDATE … WHERE id = ?` addressing a row by its rowid). -/
def modifyAt {α : Type} (i : Nat) (f : α → α) : List α → List α
  | [] => []
  | x :: xs =>
    match i with
    | 0 => f x :: xs
    | n + 1 => x :: modifyAt n f xs

/-- Opening timestamp of a trade, exposing exactly what
`strftime` extracts from `open_date` in the source. -/
structure Timestamp where
  hour : Nat
  weekday : Nat
  deriving DecidableEq

/-- One row of the external `trades` table; only the columns the engine
reads.  Nullable columns are `Option`. -/
structure Trade where
  trade_id : Nat
  pair : String
  base_currency : String
  quote_currency : String
  strategy : String
  stake_amount : ℚ
  profit_ratio_val : ℚ
  profit_pct : ℚ
  profit_abs : ℚ
  trade_duration : Option ℚ
  open_date : Option Timestamp
  close_date : Option ℚ
  exit_reason : String
  stop_loss_pct : Option ℚ
  is_open : Bool
  deriving DecidableEq

/-- Closed trades: SQL filter `is_open = 0`. -/
def closedTrades (ts : List Trade) : List Trade := ts.filter (fun t => !t.is_open)

/-- Largest `trade_id` among closed trades
(`SELECT MAX(trade_id) FROM trades WHERE is_open = 0`; 0 when none). -/
def maxClosedId (ts : List Trade) : Nat :=
  ((closedTrades ts).map Trade.trade_id).foldr max 0

/-- Distinct values of a grouping key, in first-appearance order
(SQL `GROUP BY`). -/
def groupKeys {κ : Type} [DecidableEq κ] (keyOf : Trade → κ) (ts : List Trade) : List κ :=
  (ts.map keyOf).dedup

/-- Trades of one group. -/
def groupOf {κ : Type} [DecidableEq κ] (keyOf : Trade → κ) (ts : List Trade) (k : κ) :
    List Trade :=
  ts.filter (fun t => decide (keyOf t = k))

/-- The win indicator `CASE WHEN profit_pct > 0 THEN 1.0 ELSE 0.0 END`
used by every derivation. -/
def winInd (t : Trade) : ℚ := if 0 < t.profit_pct then 1 else 0

/-- Win rate: `AVG(CASE WHEN profit_pct > 0 THEN 1.0 ELSE 0.0 END)`. -/
def winRate (ts : List Trade) : ℚ := avgQ (ts.map winInd)

/-- Number of winning trades: `SUM(CASE WHEN profit_pct > 0 THEN 1 ELSE 0 END)`. -/
def winCount (ts : List Trade) : Nat := (ts.filter (fun t => decide (0 < t.profit_pct))).length

/-- Number of losing trades: `SUM(CASE WHEN profit_pct <= 0 THEN 1 ELSE 0 END)`. -/
def lossCount (ts : List Trade) : Nat := (ts.filter (fun t => decide (t.profit_pct ≤ 0))).length

/-- Gross winning volume: `SUM(CASE WHEN profit_abs > 0 THEN profit_abs ELSE 0 END)`. -/
def winningVolume (ts : List Trade) : ℚ :=
  sumQ (ts.map (fun t => if 0 < t.profit_abs then t.profit_abs else 0))

/-- Gross losing volume: `SUM(CASE WHEN profit_abs < 0 THEN ABS(profit_abs) ELSE 0 END)`. -/
def losingVolume (ts : List Trade) : ℚ :=
  sumQ (ts.map (fun t => if t.profit_abs < 0 then |t.profit_abs| else 0))

/-- Profit factor with its division-by-zero guard, from
`update_strategy_performance`. -/
def profit_factor (ts : List Trade) : ℚ :=
  if 0 < losingVolume ts then winningVolume ts / losingVolume ts else 0

/-- Count of stop-loss exits: `SUM(CASE WHEN exit_reason = 'stop_loss' THEN 1 ELSE 0 END)`. -/
def slTriggeredCount (ts : List Trade) : Nat :=
  (ts.filter (fun t => decide (t.exit_reason = "stop_loss"))).length

/-- Stop-loss effectiveness score with its guard, from
`update_stop_loss_analytics`: fraction of stop-loss exits whose loss stayed
above -10 percent, times 100; 0 when no stop-loss exit exists. -/
def sl_effectiveness (ts : List Trade) : ℚ :=
  if 0 < slTriggeredCount ts then
    ((ts.filter (fun t => decide (t.exit_reason = "stop_loss" ∧ -10 < t.profit_pct))).length : ℚ)
      / (slTriggeredCount ts : ℚ) * 100
  else 0

/-- Population variance term `AVG(x*x) - AVG(x)*AVG(x)` of the source. -/
def varianceQ (xs : List ℚ) : ℚ := avgQ (xs.map (fun x => x * x)) - avgQ xs * avgQ xs

/-- Volatility proxy with its sample-size guard, from `update_pair_analytics`:
`CASE WHEN COUNT(*) > 1 THEN SQRT(AVG(x*x) - AVG(x)*AVG(x)) ELSE 0 END`.
`sq` is the host `SQRT`. -/
def volatility (sq : ℚ → ℚ) (xs : List ℚ) : ℚ :=
  if 1 < xs.length then sq (varianceQ xs) else 0

/-- Duration bucket of `update_duration_patterns`. -/
def durationCategory (d : ℚ) : String :=
  if d ≤ 60 then "scalp"
  else if d ≤ 480 then "short_term"
  else if d ≤ 1440 then "day_trade"
  else "swing_trade"

/-- Overall health status decision of `update_bot_health_metrics`. -/
def healthStatus (win_rate avg_profit_pct : ℚ) : String :=
  if 7/10 ≤ win_rate ∧ 1/2 ≤ avg_profit_pct then "HEALTHY"
  else if 1/2 ≤ win_rate ∧ 0 ≤ avg_profit_pct then "WARNING"
  else "CRITICAL"

/-- Health tag of the `worst_loss` metric:
`'HEALTHY' if worst_loss > -20 else 'WARNING'`. -/
def worstLossStatus (worst_loss : ℚ) : String :=
  if -20 < worst_loss then "HEALTHY" else "WARNING"

/-- Two-digit hour string as produced by `strftime('%H', …)`. -/
def hourStr (h : Nat) : String := (if h < 10 then "0" else "") ++ toString h

/-- Day name of the fixed variant's `CASE strftime('%w', …)`; `NULL` outside 0-6. -/
def dayName (w : Nat) : Option String :=
  match w with
  | 0 => some "Sunday"
  | 1 => some "Monday"
  | 2 => some "Tuesday"
  | 3 => some "Wednesday"
  | 4 => some "Thursday"
  | 5 => some "Friday"
  | 6 => some "Saturday"
  | _ => none

/-- One row of `performance_rankings` (same columns in both variants). -/
structure PerfRankRow where
  ranking_type : String
  entity_name : String
  entity_type : String
  profit_ratio_val : ℚ
  profit_pct : ℚ
  profit_abs : ℚ
  trade_count : Nat
  win_rate : ℚ
  avg_duration_minutes : ℚ
  max_profit_pct : ℚ
  min_profit_pct : ℚ
  total_volume : ℚ
  rank_position : Nat
  analysis_date : Nat
  deriving DecidableEq

/-- One row of `risk_metrics` (same columns in both variants; the fixed
variant's Sharpe ratio and drawdown can be SQL `NULL`, hence `Option`). -/
structure RiskRow where
  metric_type : String
  stop_loss_triggered_count : Nat
  stop_loss_effectiveness_pct : Option ℚ
  sharpe_ratio_val : Option ℚ
  max_drawdown_pct : Option ℚ
  analysis_date : Nat
  deriving DecidableEq

/-- One row of `strategy_performance` (same columns in both variants). -/
structure StratRow where
  strategy_name : String
  total_trades : Nat
  winning_trades : Nat
  losing_trades : Nat
  win_rate : ℚ
  avg_profit_pct : ℚ
  total_profit_abs : ℚ
  profit_factor_val : ℚ
  expectancy : ℚ
  best_trade_pct : ℚ
  worst_trade_pct : ℚ
  consistency_score : ℚ
  avg_trade_duration_minutes : ℚ
  analysis_date : Nat
  deriving DecidableEq

/-- One row of `timing_analysis` in the final variant (a single
`'overall'` summary row). -/
structure TimingRow where
  time_category : String
  trade_count : Nat
  win_rate : ℚ
  avg_profit_pct : ℚ
  total_profit_abs : ℚ
  best_performance_hour : Nat
  worst_performance_hour : Nat
  weekend_performance_pct : ℚ
  weekday_performance_pct : ℚ
  duration_minutes_avg : ℚ
  analysis_date : Nat
  deriving DecidableEq

/-- One row of `pair_analytics` in the final variant. -/
structure PairRow where
  pair : String
  base_currency : String
  quote_currency : String
  total_trades : Nat
  winning_trades : Nat
  losing_trades : Nat
  win_rate : ℚ
  avg_profit_pct : ℚ
  total_profit_abs : ℚ
  avg_trade_duration_minutes : ℚ
  price_volatility_pct : ℚ
  analysis_date : Nat
  deriving DecidableEq

/-- One row of `stop_loss_analytics` in the final variant. -/
structure SLRow where
  analysis_type : String
  pair : String
  stop_loss_level_pct : ℚ
  total_trades_with_sl : Nat
  sl_triggered_count : Nat
  sl_effectiveness_pct : ℚ
  avg_loss_when_triggered_pct : Option ℚ
  avg_profit_when_not_triggered_pct : Option ℚ
  analysis_date : Nat
  deriving DecidableEq

/-- One row of `duration_patterns` in the final variant. -/
structure DurRow where
  pattern_type : String
  duration_category : String
  min_duration_minutes : ℚ
  max_duration_minutes : ℚ
  trade_count : Nat
  win_rate : ℚ
  avg_profit_pct : ℚ
  total_profit_abs : ℚ
  optimal_exit_timing_minutes : ℚ
  analysis_date : Nat
  deriving DecidableEq

/-- One row of `bot_health_metrics` (same columns in both variants). -/
structure HealthRow where
  metric_name : String
  metric_value : ℚ
  metric_unit : String
  health_status : String
  threshold_warning : Option ℚ
  threshold_critical : Option ℚ
  last_calculation : Nat
  analysis_date : Nat
  deriving DecidableEq

/-- One row of `analysis_snapshots`. -/
structure Snapshot where
  snapshot_type : String
  records_processed : Nat
  status : String
  last_trade_id : Nat
  error_message : Option String
  deriving DecidableEq

/-- Build one `performance_rankings` row for the pair `p` with trade group
`g` and `ROW_NUMBER` value `i`. -/
def mkPerfRow (now : Nat) (i : Nat) (p : String) (g : List Trade) : PerfRankRow :=
  { ranking_type := "by_pair"
    entity_name := p
    entity_type := "trading_pair"
    profit_ratio_val := avgQ (g.map Trade.profit_ratio_val)
    profit_pct := avgQ (g.map Trade.profit_pct)
    profit_abs := sumQ (g.map Trade.profit_abs)
    trade_count := g.length
    win_rate := winRate g
    avg_duration_minutes := avgSome (g.map Trade.trade_duration)
    max_profit_pct := maxQ (g.map Trade.profit_pct)
    min_profit_pct := minQ (g.map Trade.profit_pct)
    total_volume := sumQ (g.map Trade.stake_amount)
    rank_position := i
    analysis_date := now }

/-- Assign consecutive `ROW_NUMBER` values starting at `i` to the already
sorted pair groups. -/
def rankRows (now : Nat) : Nat → List (String × List Trade) → List PerfRankRow
  | _, [] => []
  | i, (p, g) :: rest => mkPerfRow now i p g :: rankRows now (i + 1) rest

/-- Rows produced by the `performance_rankings` `SELECT` (identical SQL in
both variants): group closed trades by pair, order groups by mean
`profit_pct` descending, number them from 1. -/
def perfRankRows (now : Nat) (closed : List Trade) : List PerfRankRow :=
  let gs := (groupKeys Trade.pair closed).map (fun p => (p, groupOf Trade.pair closed p))
  rankRows now 1 (sortBy (fun a b => decide (avgQ (b.2.map Trade.profit_pct) ≤ avgQ (a.2.map Trade.profit_pct))) gs)

/-- The `risk_metrics` row of the final variant: Sharpe ratio hardcoded to
`0.0`, drawdown proxy `MIN(profit_pct)`. -/
def riskRowFinal (now : Nat) (closed : List Trade) : RiskRow :=
  let slLoss := sumQ (closed.map (fun t =>
    if t.exit_reason = "stop_loss" ∧ t.profit_abs < 0 then |t.profit_abs| else 0))
  { metric_type := "overall"
    stop_loss_triggered_count := slTriggeredCount closed
    stop_loss_effectiveness_pct :=
      if 0 < slTriggeredCount closed then
        (if losingVolume closed = 0 then none else some (slLoss / losingVolume closed * 100))
      else some 0
    sharpe_ratio_val := some 0
    max_drawdown_pct := if closed = [] then none else some (minQ (closed.map Trade.profit_pct))
    analysis_date := now }

/-- Build one `strategy_performance` row; `consistency` is the variant's
consistency-score expression. -/
def mkStratRow (now : Nat) (consistency : List Trade → ℚ) (s : String) (g : List Trade) :
    StratRow :=
  { strategy_name := s
    total_trades := g.length
    winning_trades := winCount g
    losing_trades := lossCount g
    win_rate := winRate g
    avg_profit_pct := avgQ (g.map Trade.profit_pct)
    total_profit_abs := sumQ (g.map Trade.profit_abs)
    profit_factor_val := profit_factor g
    expectancy := avgQ (g.map Trade.profit_pct) * winRate g
    best_trade_pct := maxQ (g.map Trade.profit_pct)
    worst_trade_pct := minQ (g.map Trade.profit_pct)
    consistency_score := consistency g
    avg_trade_duration_minutes := avgSome (g.map Trade.trade_duration)
    analysis_date := now }

/-- Rows of the `strategy_performance` `SELECT` of the final variant
(consistency score is the literal `0.5`). -/
def stratRowsFinal (now : Nat) (closed : List Trade) : List StratRow :=
  (groupKeys Trade.strategy closed).map
    (fun s => mkStratRow now (fun _ => 1/2) s (groupOf Trade.strategy closed s))

/-- Hour extracted from a trade's `open_date` (only applied to trades whose
`open_date` is not `NULL`). -/
def hourOf (t : Trade) : Nat := (t.open_date.map Timestamp.hour).getD 0

/-- Weekend test `strftime('%w', open_date) IN ('0', '6')`. -/
def isWeekend (t : Trade) : Bool :=
  match t.open_date with
  | some d => decide (d.weekday = 0 ∨ d.weekday = 6)
  | none => false

/-- The single `timing_analysis` row of the final variant, including the
hourly best/worst computation and the weekend/weekday comparison. -/
def timingRowFinal (now : Nat) (closed : List Trade) : TimingRow :=
  let dated := closed.filter (fun t => t.open_date.isSome)
  let hgs := (groupKeys hourOf dated).map (fun h => (h, groupOf hourOf dated h))
  let sorted := sortBy
    (fun a b => decide (avgQ (b.2.map Trade.profit_pct) ≤ avgQ (a.2.map Trade.profit_pct))) hgs
  let best := if sorted = [] then 0 else ((sorted.head?.map Prod.fst).getD 0)
  let worst := if sorted = [] then 0 else ((sorted.getLast?.map Prod.fst).getD 0)
  let wke := dated.filter isWeekend
  let wkd := dated.filter (fun t => !isWeekend t)
  let wkePerf := if sorted = [] then 0 else (if wke = [] then 0 else avgQ (wke.map Trade.profit_pct))
  let wkdPerf := if sorted = [] then 0 else (if wkd = [] then 0 else avgQ (wkd.map Trade.profit_pct))
  { time_category := "overall"
    trade_count := closed.length
    win_rate := winRate closed
    avg_profit_pct := avgQ (closed.map Trade.profit_pct)
    total_profit_abs := sumQ (closed.map Trade.profit_abs)
    best_performance_hour := best
    worst_performance_hour := worst
    weekend_performance_pct := wkePerf
    weekday_performance_pct := wkdPerf
    duration_minutes_avg := avgSome (closed.map Trade.trade_duration)
    analysis_date := now }

/-- Grouping key of the final variant's `pair_analytics`
(`GROUP BY pair, base_currency, quote_currency`). -/
def pairTriple (t : Trade) : String × String × String :=
  (t.pair, t.base_currency, t.quote_currency)

/-- Rows of the `pair_analytics` `SELECT` of the final variant. -/
def pairRowsFinal (sq : ℚ → ℚ) (now : Nat) (closed : List Trade) : List PairRow :=
  (groupKeys pairTriple closed).map (fun k =>
    let g := groupOf pairTriple closed k
    { pair := k.1
      base_currency := k.2.1
      quote_currency := k.2.2
      total_trades := g.length
      winning_trades := winCount g
      losing_trades := lossCount g
      win_rate := winRate g
      avg_profit_pct := avgQ (g.map Trade.profit_pct)
      total_profit_abs := sumQ (g.map Trade.profit_abs)
      avg_trade_duration_minutes := avgSome (g.map Trade.trade_duration)
      price_volatility_pct := volatility sq (g.map Trade.profit_pct)
      analysis_date := now })

/-- Rows of the `stop_loss_analytics` `SELECT` of the final variant
(over closed trades with a configured stop loss, grouped by pair). -/
def slRowsFinal (now : Nat) (closed : List Trade) : List SLRow :=
  let src := closed.filter (fun t => t.stop_loss_pct.isSome)
  (groupKeys Trade.pair src).map (fun p =>
    let g := groupOf Trade.pair src p
    { analysis_type := "by_pair"
      pair := p
      stop_loss_level_pct := avgSome (g.map Trade.stop_loss_pct)
      total_trades_with_sl := g.length
      sl_triggered_count := slTriggeredCount g
      sl_effectiveness_pct := sl_effectiveness g
      avg_loss_when_triggered_pct :=
        avgOpt ((g.filter (fun t => decide (t.exit_reason = "stop_loss"))).map Trade.profit_pct)
      avg_profit_when_not_triggered_pct :=
        avgOpt ((g.filter (fun t => decide (¬ t.exit_reason = "stop_loss"))).map Trade.profit_pct)
      analysis_date := now })

/-- Duration bucket of a trade (applied to trades with non-`NULL` duration). -/
def durKey (t : Trade) : String := durationCategory (t.trade_duration.getD 0)

/-- Rows of the `duration_patterns` `SELECT` of the final variant. -/
def durRowsFinal (now : Nat) (closed : List Trade) : List DurRow :=
  let src := closed.filter (fun t => t.trade_duration.isSome)
  (groupKeys durKey src).map (fun c =>
    let g := groupOf durKey src c
    { pattern_type := "duration_based"
      duration_category := c
      min_duration_minutes := minQ ((g.map Trade.trade_duration).filterMap id)
      max_duration_minutes := maxQ ((g.map Trade.trade_duration).filterMap id)
      trade_count := g.length
      win_rate := winRate g
      avg_profit_pct := avgQ (g.map Trade.profit_pct)
      total_profit_abs := sumQ (g.map Trade.profit_abs)
      optimal_exit_timing_minutes := avgSome (g.map Trade.trade_duration)
      analysis_date := now })

/-- Rows of `bot_health_metrics` (identical computation in both variants):
six gauges, inserted only when at least one closed trade exists. -/
def botHealthRows (now : Nat) (closed : List Trade) : List HealthRow :=
  if 0 < closed.length then
    let wr := winRate closed
    let ap := avgQ (closed.map Trade.profit_pct)
    let tp := sumQ (closed.map Trade.profit_abs)
    let wl := minQ (closed.map Trade.profit_pct)
    let bw := maxQ (closed.map Trade.profit_pct)
    let st := healthStatus wr ap
    [ { metric_name := "overall_win_rate", metric_value := wr * 100, metric_unit := "%",
        health_status := st, threshold_warning := some 60, threshold_critical := some 40,
        last_calculation := now, analysis_date := now },
      { metric_name := "avg_profit_pct", metric_value := ap, metric_unit := "%",
        health_status := st, threshold_warning := some (1/2), threshold_critical := some 0,
        last_calculation := now, analysis_date := now },
      { metric_name := "total_trades", metric_value := (closed.length : ℚ), metric_unit := "count",
        health_status := "HEALTHY", threshold_warning := none, threshold_critical := none,
        last_calculation := now, analysis_date := now },
      { metric_name := "total_profit", metric_value := tp, metric_unit := "abs",
        health_status := st, threshold_warning := none, threshold_critical := none,
        last_calculation := now, analysis_date := now },
      { metric_name := "worst_loss", metric_value := wl, metric_unit := "%",
        health_status := worstLossStatus wl, threshold_warning := some (-10),
        threshold_critical := some (-20), last_calculation := now, analysis_date := now },
      { metric_name := "best_win", metric_value := bw, metric_unit := "%",
        health_status := "HEALTHY", threshold_warning := none, threshold_critical := none,
        last_calculation := now, analysis_date := now } ]
  else []

/-- Database state of the final variant: the external `trades` table, the
`analysis_snapshots` audit table and the eight analytics tables. -/
structure DB where
  trades : List Trade
  snapshots : List Snapshot
  performance_rankings : List PerfRankRow
  risk_metrics : List RiskRow
  strategy_performance : List StratRow
  timing_analysis : List TimingRow
  pair_analytics : List PairRow
  stop_loss_analytics : List SLRow
  duration_patterns : List DurRow
  bot_health_metrics : List HealthRow
  deriving DecidableEq

/-- `update_performance_rankings` (final):
`DELETE … WHERE ranking_type = 'by_pair'` then `INSERT … SELECT`. -/
def update_performance_rankings (now : Nat) (db : DB) : DB :=
  { db with performance_rankings :=
      db.performance_rankings.filter (fun r => !decide (r.ranking_type = "by_pair"))
        ++ perfRankRows now (closedTrades db.trades) }

/-- `update_risk_metrics` (final):
`DELETE … WHERE metric_type = 'overall'` then `INSERT … SELECT`. -/
def update_risk_metrics (now : Nat) (db : DB) : DB :=
  { db with risk_metrics :=
      db.risk_metrics.filter (fun r => !decide (r.metric_type = "overall"))
        ++ [riskRowFinal now (closedTrades db.trades)] }

/-- `update_strategy_performance` (final): delete all rows then reinsert. -/
def update_strategy_performance (now : Nat) (db : DB) : DB :=
  { db with strategy_performance := stratRowsFinal now (closedTrades db.trades) }

/-- `update_timing_analysis` (final): delete all rows then insert the single
`'overall'` row. -/
def update_timing_analysis (now : Nat) (db : DB) : DB :=
  { db with timing_analysis := [timingRowFinal now (closedTrades db.trades)] }

/-- `update_pair_analytics` (final): delete all rows then reinsert. -/
def update_pair_analytics (sq : ℚ → ℚ) (now : Nat) (db : DB) : DB :=
  { db with pair_analytics := pairRowsFinal sq now (closedTrades db.trades) }

/-- `update_stop_loss_analytics` (final): delete all rows then reinsert. -/
def update_stop_loss_analytics (now : Nat) (db : DB) : DB :=
  { db with stop_loss_analytics := slRowsFinal now (closedTrades db.trades) }

/-- `update_duration_patterns` (final): delete all rows then reinsert. -/
def update_duration_patterns (now : Nat) (db : DB) : DB :=
  { db with duration_patterns := durRowsFinal now (closedTrades db.trades) }

/-- `update_bot_health_metrics` (final): delete all rows then (when at least
one closed trade exists) insert the six gauges. -/
def update_bot_health_metrics (now : Nat) (db : DB) : DB :=
  { db with bot_health_metrics := botHealthRows now (closedTrades db.trades) }

/-- The eight derivations of `process_new_trades` (final), in call order. -/
def derivsFinal (sq : ℚ → ℚ) (now : Nat) : List (DB → DB) :=
  [ update_performance_rankings now,
    update_risk_metrics now,
    update_strategy_performance now,
    update_timing_analysis now,
    update_pair_analytics sq now,
    update_stop_loss_analytics now,
    update_duration_patterns now,
    update_bot_health_metrics now ]

/-- Apply the first `n` derivations of `fs` to the working copy of the
database (the writes accumulated in the open transaction when a later
derivation raises). -/
def applyDerivs (fs : List (DB → DB)) (n : Nat) (db : DB) : DB :=
  (fs.take n).foldl (fun d f => f d) db

/-- The snapshot row inserted at cycle start. -/
def processingSnap (cnt maxId : Nat) : Snapshot :=
  { snapshot_type := "automated_analysis", records_processed := cnt,
    status := "processing", last_trade_id := maxId, error_message := none }

/-- The snapshot row as committed by a fully successful cycle. -/
def completedSnap (cnt maxId : Nat) : Snapshot :=
  { snapshot_type := "automated_analysis", records_processed := cnt,
    status := "completed", last_trade_id := maxId, error_message := none }

/-- The snapshot row as committed when a derivation raised `msg`. -/
def failedSnap (cnt maxId : Nat) (msg : String) : Snapshot :=
  { snapshot_type := "automated_analysis", records_processed := cnt,
    status := "failed", last_trade_id := maxId, error_message := some msg }

/-- `process_new_trades` (final).  `failAt = some (k, msg)` injects a raise
into derivation number `k` (0-based), so the first `k` derivations have
already written into the open transaction; the `except` branch then marks
the snapshot `failed` and calls `conn.commit()`, committing everything
written so far, and the re-raised exception is swallowed by the outer
`except`.  On success all eight derivations are committed together with the
`completed` snapshot, and the in-memory watermark advances to the maximum
closed `trade_id`.  Returns the durable database and the watermark. -/
def process_new_trades (sq : ℚ → ℚ) (now : Nat) (failAt : Option (Fin 8 × String))
    (db : DB) (wm : Nat) (tradeCount : Nat) : DB × Nat :=
  let maxId := maxClosedId db.trades
  let snapIdx := db.snapshots.length
  let working := { db with snapshots := db.snapshots ++ [processingSnap tradeCount maxId] }
  match failAt with
  | none =>
    let working := applyDerivs (derivsFinal sq now) 8 working
    let snaps := modifyAt snapIdx
      (fun s => { s with status := "completed", last_trade_id := maxId }) working.snapshots
    ({ working with snapshots := snaps }, maxId)
  | some (k, msg) =>
    let working := applyDerivs (derivsFinal sq now) k.1 working
    let snaps := modifyAt snapIdx
      (fun s => { s with status := "failed", error_message := some msg }) working.snapshots
    ({ working with snapshots := snaps }, wm)

/-- `check_for_new_trades` (final): counts closed trades beyond the
watermark; on a positive count runs `process_new_trades` and reports
`true`, otherwise (or when the query itself raises, `queryError`) leaves
everything untouched and reports `false`. -/
def check_for_new_trades (sq : ℚ → ℚ) (now : Nat) (queryError : Bool)
    (failAt : Option (Fin 8 × String)) (db : DB) (wm : Nat) : DB × Nat × Bool :=
  if queryError then (db, wm, false)
  else
    let newCount := (db.trades.filter (fun t => decide (wm < t.trade_id) && !t.is_open)).length
    if 0 < newCount then
      let r := process_new_trades sq now failAt db wm newCount
      (r.1, r.2, true)
    else (db, wm, false)

/-- The `last_trade_id` values of the completed snapshots, in insertion
order (the rows scanned by `MAX(last_trade_id) … WHERE status = 'completed'`). -/
def completedIds (snaps : List Snapshot) : List Nat :=
  (snaps.filter (fun s => decide (s.status = "completed"))).map Snapshot.last_trade_id

/-- `get_last_processed_trade_id`:
`SELECT MAX(last_trade_id) FROM analysis_snapshots WHERE status = 'completed'`,
with the Python fallback to `0` on a `NULL`/zero result or a raised query. -/
def get_last_processed_trade_id (queryError : Bool) (snaps : List Snapshot) : Nat :=
  if queryError then 0
  else
    match (completedIds snaps).max? with
    | some v => v
    | none => 0

/-- Sqlite `INSERT OR REPLACE` into a table whose unique key is `key`:
each inserted row deletes any existing row with the same key and is
appended; rows with other keys are untouched. -/
def insertOrReplace {ρ κ : Type} [DecidableEq κ] (key : ρ → κ) (tbl rows : List ρ) : List ρ :=
  rows.foldl (fun acc r => acc.filter (fun x => !decide (key x = key r)) ++ [r]) tbl

/-- One row of `timing_analysis` in the fixed variant (hour-of-day and
day-of-week groups; `time_value` is `NULL`-able through the day-name `CASE`). -/
structure TimingRowF where
  time_category : String
  time_value : Option String
  trade_count : Nat
  avg_profit_pct : ℚ
  win_rate : ℚ
  last_updated : Nat
  deriving DecidableEq

/-- One row of `pair_analytics` in the fixed variant. -/
structure PairRowF where
  pair : String
  trade_count : Nat
  total_profit_abs : ℚ
  avg_profit_pct : ℚ
  win_rate : ℚ
  avg_duration_minutes : ℚ
  volatility_score : ℚ
  last_updated : Nat
  deriving DecidableEq

/-- One row of `stop_loss_analytics` in the fixed variant. -/
structure SLRowF where
  pair : String
  total_trades : Nat
  stop_loss_count : Nat
  stop_loss_rate : ℚ
  avg_loss_when_triggered : Option ℚ
  effectiveness_score : ℚ
  last_updated : Nat
  deriving DecidableEq

/-- One row of `duration_patterns` in the fixed variant. -/
structure DurRowF where
  duration_category : String
  trade_count : Nat
  avg_profit_pct : ℚ
  win_rate : ℚ
  optimal_exit_minutes : ℚ
  last_updated : Nat
  deriving DecidableEq

/-- The `risk_metrics` row of the fixed variant: a computed Sharpe-ratio
proxy (`NULL` when the guarded `SQRT` is zero) and a running-total drawdown
over closed trades ordered by `close_date`. -/
def riskRowFixed (sq : ℚ → ℚ) (now : Nat) (closed : List Trade) : RiskRow :=
  let slLoss := sumQ (closed.map (fun t =>
    if t.exit_reason = "stop_loss" ∧ t.profit_abs < 0 then |t.profit_abs| else 0))
  let pps := closed.map Trade.profit_pct
  let dated := closed.filter (fun t => t.close_date.isSome)
  let ordered := sortBy (fun a b => decide (a.close_date.getD 0 ≤ b.close_date.getD 0)) dated
  let running := prefixSums 0 (ordered.map Trade.profit_abs)
  { metric_type := "overall"
    stop_loss_triggered_count := slTriggeredCount closed
    stop_loss_effectiveness_pct :=
      if 0 < slTriggeredCount closed then
        (if losingVolume closed = 0 then none else some (slLoss / losingVolume closed * 100))
      else some 0
    sharpe_ratio_val :=
      if ¬ avgQ pps = 0 ∧ 1 < closed.length then
        (if sq (varianceQ pps) = 0 then none else some (avgQ pps / sq (varianceQ pps)))
      else some 0
    max_drawdown_pct := if running = [] then none else some (minQ running)
    analysis_date := now }

/-- Consistency score of the fixed variant's `strategy_performance`:
`1 - SQRT(variance) / AVG(ABS(profit_pct))`, guarded on the mean absolute
profit being positive. -/
def consistencyFixed (sq : ℚ → ℚ) (g : List Trade) : ℚ :=
  if 0 < avgQ (g.map (fun t => |t.profit_pct|)) then
    1 - sq (varianceQ (g.map Trade.profit_pct)) / avgQ (g.map (fun t => |t.profit_pct|))
  else 0

/-- Rows of the `strategy_performance` `SELECT` of the fixed variant. -/
def stratRowsFixed (sq : ℚ → ℚ) (now : Nat) (closed : List Trade) : List StratRow :=
  (groupKeys Trade.strategy closed).map
    (fun s => mkStratRow now (consistencyFixed sq) s (groupOf Trade.strategy closed s))

/-- Hour-of-day rows of the fixed variant's `timing_analysis`. -/
def hourRowsFixed (now : Nat) (closed : List Trade) : List TimingRowF :=
  let dated := closed.filter (fun t => t.open_date.isSome)
  (groupKeys hourOf dated).map (fun h =>
    let g := groupOf hourOf dated h
    { time_category := "hour_of_day"
      time_value := some (hourStr h)
      trade_count := g.length
      avg_profit_pct := avgQ (g.map Trade.profit_pct)
      win_rate := winRate g
      last_updated := now })

/-- Weekday extracted from a trade's `open_date`. -/
def weekdayOf (t : Trade) : Nat := (t.open_date.map Timestamp.weekday).getD 0

/-- Day-of-week rows of the fixed variant's `timing_analysis`. -/
def dayRowsFixed (now : Nat) (closed : List Trade) : List TimingRowF :=
  let dated := closed.filter (fun t => t.open_date.isSome)
  (groupKeys weekdayOf dated).map (fun w =>
    let g := groupOf weekdayOf dated w
    { time_category := "day_of_week"
      time_value := dayName w
      trade_count := g.length
      avg_profit_pct := avgQ (g.map Trade.profit_pct)
      win_rate := winRate g
      last_updated := now })

/-- Rows of the `pair_analytics` `SELECT` of the fixed variant
(grouped by pair only). -/
def pairRowsFixed (sq : ℚ → ℚ) (now : Nat) (closed : List Trade) : List PairRowF :=
  (groupKeys Trade.pair closed).map (fun p =>
    let g := groupOf Trade.pair closed p
    { pair := p
      trade_count := g.length
      total_profit_abs := sumQ (g.map Trade.profit_abs)
      avg_profit_pct := avgQ (g.map Trade.profit_pct)
      win_rate := winRate g
      avg_duration_minutes := avgSome (g.map Trade.trade_duration)
      volatility_score := volatility sq (g.map Trade.profit_pct)
      last_updated := now })

/-- Rows of the `stop_loss_analytics` `SELECT` of the fixed variant
(all closed trades, grouped by pair). -/
def slRowsFixed (now : Nat) (closed : List Trade) : List SLRowF :=
  (groupKeys Trade.pair closed).map (fun p =>
    let g := groupOf Trade.pair closed p
    { pair := p
      total_trades := g.length
      stop_loss_count := slTriggeredCount g
      stop_loss_rate := avgQ (g.map (fun t => if t.exit_reason = "stop_loss" then (1 : ℚ) else 0))
      avg_loss_when_triggered :=
        avgOpt ((g.filter (fun t => decide (t.exit_reason = "stop_loss"))).map Trade.profit_pct)
      effectiveness_score := sl_effectiveness g
      last_updated := now })

/-- Rows of the `duration_patterns` `SELECT` of the fixed variant. -/
def durRowsFixed (now : Nat) (closed : List Trade) : List DurRowF :=
  let src := closed.filter (fun t => t.trade_duration.isSome)
  (groupKeys durKey src).map (fun c =>
    let g := groupOf durKey src c
    { duration_category := c
      trade_count := g.length
      avg_profit_pct := avgQ (g.map Trade.profit_pct)
      win_rate := winRate g
      optimal_exit_minutes := avgSome (g.map Trade.trade_duration)
      last_updated := now })

/-- Database state of the fixed variant. -/
structure DBF where
  trades : List Trade
  snapshots : List Snapshot
  performance_rankings : List PerfRankRow
  risk_metrics : List RiskRow
  strategy_performance : List StratRow
  timing_analysis : List TimingRowF
  pair_analytics : List PairRowF
  stop_loss_analytics : List SLRowF
  duration_patterns : List DurRowF
  bot_health_metrics : List HealthRow
  deriving DecidableEq

/-- `update_performance_rankings` (fixed): `INSERT OR REPLACE`, keyed by
`(ranking_type, entity_name)`, with no prior `DELETE`. -/
def update_performance_rankings_fixed (now : Nat) (db : DBF) : DBF :=
  let tbl := insertOrReplace (fun r => (r.ranking_type, r.entity_name))
    db.performance_rankings (perfRankRows now (closedTrades db.trades))
  { db with performance_rankings := tbl }

/-- `update_risk_metrics` (fixed): `INSERT OR REPLACE` keyed by `metric_type`. -/
def update_risk_metrics_fixed (sq : ℚ → ℚ) (now : Nat) (db : DBF) : DBF :=
  let tbl := insertOrReplace RiskRow.metric_type db.risk_metrics
    [riskRowFixed sq now (closedTrades db.trades)]
  { db with risk_metrics := tbl }

/-- `update_strategy_performance` (fixed): `INSERT OR REPLACE` keyed by
`strategy_name`. -/
def update_strategy_performance_fixed (sq : ℚ → ℚ) (now : Nat) (db : DBF) : DBF :=
  let tbl := insertOrReplace StratRow.strategy_name db.strategy_performance
    (stratRowsFixed sq now (closedTrades db.trades))
  { db with strategy_performance := tbl }

/-- `update_timing_analysis` (fixed): two `INSERT OR REPLACE` statements
keyed by `(time_category, time_value)`. -/
def update_timing_analysis_fixed (now : Nat) (db : DBF) : DBF :=
  let key := fun (r : TimingRowF) => (r.time_category, r.time_value)
  let tbl1 := insertOrReplace key db.timing_analysis (hourRowsFixed now (closedTrades db.trades))
  let tbl2 := insertOrReplace key tbl1 (dayRowsFixed now (closedTrades db.trades))
  { db with timing_analysis := tbl2 }

/-- `update_pair_analytics` (fixed): `INSERT OR REPLACE` keyed by `pair`. -/
def update_pair_analytics_fixed (sq : ℚ → ℚ) (now : Nat) (db : DBF) : DBF :=
  let tbl := insertOrReplace PairRowF.pair db.pair_analytics
    (pairRowsFixed sq now (closedTrades db.trades))
  { db with pair_analytics := tbl }

/-- `update_stop_loss_analytics` (fixed): `INSERT OR REPLACE` keyed by `pair`. -/
def update_stop_loss_analytics_fixed (now : Nat) (db : DBF) : DBF :=
  let tbl := insertOrReplace SLRowF.pair db.stop_loss_analytics
    (slRowsFixed now (closedTrades db.trades))
  { db with stop_loss_analytics := tbl }

/-- `update_duration_patterns` (fixed): `INSERT OR REPLACE` keyed by
`duration_category`. -/
def update_duration_patterns_fixed (now : Nat) (db : DBF) : DBF :=
  let tbl := insertOrReplace DurRowF.duration_category db.duration_patterns
    (durRowsFixed now (closedTrades db.trades))
  { db with duration_patterns := tbl }

/-- `update_bot_health_metrics` (fixed): per-metric `INSERT OR REPLACE`
keyed by `metric_name`, no prior `DELETE`. -/
def update_bot_health_metrics_fixed (now : Nat) (db : DBF) : DBF :=
  let tbl := insertOrReplace HealthRow.metric_name db.bot_health_metrics
    (botHealthRows now (closedTrades db.trades))
  { db with bot_health_metrics := tbl }

/-- The eight derivations of `process_new_trades` (fixed), in call order. -/
def derivsFixed (sq : ℚ → ℚ) (now : Nat) : List (DBF → DBF) :=
  [ update_performance_rankings_fixed now,
    update_risk_metrics_fixed sq now,
    update_strategy_performance_fixed sq now,
    update_timing_analysis_fixed now,
    update_pair_analytics_fixed sq now,
    update_stop_loss_analytics_fixed now,
    update_duration_patterns_fixed now,
    update_bot_health_metrics_fixed now ]

/-- Apply the first `n` fixed derivations. -/
def applyDerivsF (fs : List (DBF → DBF)) (n : Nat) (db : DBF) : DBF :=
  (fs.take n).foldl (fun d f => f d) db

/-- The closed trades beyond the watermark fetched by the fixed variant's
`check_for_new_trades`, in `trade_id` order. -/
def newTradesFixed (trades : List Trade) (wm : Nat) : List Trade :=
  sortBy (fun a b => decide (a.trade_id ≤ b.trade_id))
    (trades.filter (fun t => decide (wm < t.trade_id) && !t.is_open))

/-- `process_new_trades` (fixed): like the final variant, but the snapshot
and watermark use the maximum `trade_id` of the fetched new trades. -/
def process_new_trades_fixed (sq : ℚ → ℚ) (now : Nat) (failAt : Option (Fin 8 × String))
    (db : DBF) (wm : Nat) (newTrades : List Trade) : DBF × Nat :=
  let maxId := (newTrades.map Trade.trade_id).foldr max 0
  let snapIdx := db.snapshots.length
  let working := { db with snapshots := db.snapshots ++ [processingSnap newTrades.length maxId] }
  match failAt with
  | none =>
    let working := applyDerivsF (derivsFixed sq now) 8 working
    let snaps := modifyAt snapIdx
      (fun s => { s with status := "completed", last_trade_id := maxId }) working.snapshots
    ({ working with snapshots := snaps }, maxId)
  | some (k, msg) =>
    let working := applyDerivsF (derivsFixed sq now) k.1 working
    let snaps := modifyAt snapIdx
      (fun s => { s with status := "failed", error_message := some msg }) working.snapshots
    ({ working with snapshots := snaps }, wm)

/-- `check_for_new_trades` (fixed): fetches the new closed trades; when the
list is nonempty runs `process_new_trades` and reports `true`, otherwise
(or when the query raises) leaves everything untouched and reports `false`. -/
def check_for_new_trades_fixed (sq : ℚ → ℚ) (now : Nat) (queryError : Bool)
    (failAt : Option (Fin 8 × String)) (db : DBF) (wm : Nat) : DBF × Nat × Bool :=
  if queryError then (db, wm, false)
  else
    let nts := newTradesFixed db.trades wm
    if ¬ nts = [] then
      let r := process_new_trades_fixed sq now failAt db wm nts
      (r.1, r.2, true)
    else (db, wm, false)

/-- Engine state observed across cycles: the database plus the in-memory
`last_processed_trade_id`. -/
structure Sys where
  db : DB
  wm : Nat
  deriving DecidableEq

/-- An external event: the trading system appending trades, or the
scheduler firing one cycle (with the cycle's wall clock, an optional
detection-query failure and an optional derivation failure). -/
inductive Event where
  | append (ts : List Trade)
  | cycle (sq : ℚ → ℚ) (now : Nat) (queryError : Bool) (failAt : Option (Fin 8 × String))

/-- One step of the system. -/
def step (s : Sys) (e : Event) : Sys :=
  match e with
  | .append ts => { s with db := { s.db with trades := s.db.trades ++ ts } }
  | .cycle sq now qe f =>
    let r := check_for_new_trades sq now qe f s.db s.wm
    { db := r.1, wm := r.2.1 }

/-- Run a sequence of events. -/
def run (s : Sys) : List Event → Sys
  | [] => s
  | e :: es => run (step s e) es

/-! ### Supporting lemmas -/

lemma sum_winInd (ts : List Trade) :
    sumQ (ts.map winInd) = ((ts.filter (fun x => decide (0 < x.profit_pct))).length : ℚ) := by
  induction ts with
  | nil => rfl
  | cons t ts ih =>
    have hs : sumQ ((t :: ts).map winInd) = winInd t + sumQ (ts.map winInd) := rfl
    rw [hs, ih, List.filter_cons]
    by_cases h : 0 < t.profit_pct
    · rw [if_pos (by simpa using h), show winInd t = 1 from if_pos h, List.length_cons]
      push_cast
      ring
    · rw [if_neg (by simpa using h), show winInd t = 0 from if_neg h]
      ring

lemma le_foldr_max {l : List Nat} {a : Nat} (h : a ∈ l) : a ≤ l.foldr max 0 := by
  induction l with
  | nil => cases h
  | cons x xs ih =>
    rcases List.mem_cons.mp h with rfl | hm
    · exact le_max_left _ _
    · exact le_trans (ih hm) (le_max_right _ _)

lemma closed_le_maxClosedId {t : Trade} {ts : List Trade} (ht : t ∈ ts)
    (hc : t.is_open = false) : t.trade_id ≤ maxClosedId ts :=
  le_foldr_max (List.mem_map_of_mem _ (List.mem_filter.mpr ⟨ht, by simp [hc]⟩))

lemma insertBy_perm {α : Type} (r : α → α → Bool) (x : α) (l : List α) :
    (insertBy r x l).Perm (x :: l) := by
  induction l with
  | nil => exact List.Perm.refl _
  | cons y ys ih =>
    unfold insertBy
    split
    · exact List.Perm.refl _
    · exact (ih.cons y).trans (List.Perm.swap x y ys)

lemma sortBy_perm {α : Type} (r : α → α → Bool) (l : List α) : (sortBy r l).Perm l := by
  induction l with
  | nil => exact List.Perm.refl _
  | cons x xs ih => exact (insertBy_perm r x (sortBy r xs)).trans (ih.cons x)

lemma foldl_max_sorted : ∀ (t : List Nat) (a : Nat), (∀ x ∈ t, a ≤ x) →
    t.Pairwise (· ≤ ·) → t.foldl max a = t.getLastD a := by
  intro t
  induction t with
  | nil => intro a _ _; rfl
  | cons b t ih =>
    intro a ha hp
    rw [List.foldl_cons, List.getLastD_cons, max_eq_right (ha b (List.mem_cons_self b t))]
    exact ih b (List.pairwise_cons.mp hp).1 (List.pairwise_cons.mp hp).2

lemma modifyAt_append {α : Type} (l : List α) (a : α) (f : α → α) :
    modifyAt l.length f (l ++ [a]) = l ++ [f a] := by
  induction l with
  | nil => rfl
  | cons x xs ih => simpa [modifyAt] using ih

lemma derivsFinal_preserve (sq : ℚ → ℚ) (now : Nat) :
    ∀ f ∈ derivsFinal sq now, ∀ d : DB,
      (f d).snapshots = d.snapshots ∧ (f d).trades = d.trades := by
  intro f hf d
  simp only [derivsFinal, List.mem_cons, List.not_mem_nil, or_false] at hf
  rcases hf with rfl | rfl | rfl | rfl | rfl | rfl | rfl | rfl <;> exact ⟨rfl, rfl⟩

lemma foldl_apply_preserve (fs : List (DB → DB))
    (hp : ∀ f ∈ fs, ∀ d : DB, (f d).snapshots = d.snapshots ∧ (f d).trades = d.trades) :
    ∀ d : DB, (fs.foldl (fun x f => f x) d).snapshots = d.snapshots ∧
      (fs.foldl (fun x f => f x) d).trades = d.trades := by
  induction fs with
  | nil => intro d; exact ⟨rfl, rfl⟩
  | cons f fs ih =>
    intro d
    have h1 := hp f (List.mem_cons_self f fs) d
    have h2 := ih (fun g hg d2 => hp g (List.mem_cons_of_mem f hg) d2) (f d)
    rw [List.foldl_cons]
    exact ⟨h2.1.trans h1.1, h2.2.trans h1.2⟩

lemma applyDerivs_preserve (sq : ℚ → ℚ) (now : Nat) (n : Nat) (d : DB) :
    (applyDerivs (derivsFinal sq now) n d).snapshots = d.snapshots ∧
    (applyDerivs (derivsFinal sq now) n d).trades = d.trades :=
  foldl_apply_preserve _
    (fun f hf => derivsFinal_preserve sq now f (List.take_subset n _ hf)) d

lemma applyDerivs_eight (sq : ℚ → ℚ) (now : Nat) (w : DB) :
    applyDerivs (derivsFinal sq now) 8 w =
      { trades := w.trades
        snapshots := w.snapshots
        performance_rankings :=
          w.performance_rankings.filter (fun r => !decide (r.ranking_type = "by_pair"))
            ++ perfRankRows now (closedTrades w.trades)
        risk_metrics :=
          w.risk_metrics.filter (fun r => !decide (r.metric_type = "overall"))
            ++ [riskRowFinal now (closedTrades w.trades)]
        strategy_performance := stratRowsFinal now (closedTrades w.trades)
        timing_analysis := [timingRowFinal now (closedTrades w.trades)]
        pair_analytics := pairRowsFinal sq now (closedTrades w.trades)
        stop_loss_analytics := slRowsFinal now (closedTrades w.trades)
        duration_patterns := durRowsFinal now (closedTrades w.trades)
        bot_health_metrics := botHealthRows now (closedTrades w.trades) } := rfl

lemma rankRows_map_entity (now : Nat) :
    ∀ (i : Nat) (l : List (String × List Trade)),
      (rankRows now i l).map PerfRankRow.entity_name = l.map Prod.fst := by
  intro i l
  induction l generalizing i with
  | nil => rfl
  | cons p rest ih =>
    obtain ⟨p1, g⟩ := p
    simp [rankRows, mkPerfRow, ih]

lemma rankRows_by_pair (now : Nat) :
    ∀ (i : Nat) (l : List (String × List Trade)),
      ∀ r ∈ rankRows now i l, r.ranking_type = "by_pair" := by
  intro i l
  induction l generalizing i with
  | nil => intro r hr; cases hr
  | cons p rest ih =>
    obtain ⟨p1, g⟩ := p
    intro r hr
    rcases List.mem_cons.mp hr with rfl | hm
    · rfl
    · exact ih _ r hm

/-! ### Sample data for concrete evaluations -/

/-- A single closed trade used by concrete evaluations. -/
def sampleTrade : Trade :=
  { trade_id := 1, pair := "BTC/USD", base_currency := "BTC", quote_currency := "USD",
    strategy := "s", stake_amount := 100, profit_ratio_val := 0, profit_pct := 5,
    profit_abs := 5, trade_duration := some 30, open_date := none, close_date := none,
    exit_reason := "roi", stop_loss_pct := none, is_open := false }

/-- A final-variant database with the given trades and empty analytics
tables and snapshot log. -/
def emptyTablesDB (ts : List Trade) : DB :=
  { trades := ts, snapshots := [], performance_rankings := [], risk_metrics := [],
    strategy_performance := [], timing_analysis := [], pair_analytics := [],
    stop_loss_analytics := [], duration_patterns := [], bot_health_metrics := [] }

/-- A fixed-variant database with the given trades, a given initial
`performance_rankings` table, and otherwise empty tables. -/
def initialDBF (ts : List Trade) (perf : List PerfRankRow) : DBF :=
  { trades := ts, snapshots := [], performance_rankings := perf, risk_metrics := [],
    strategy_performance := [], timing_analysis := [], pair_analytics := [],
    stop_loss_analytics := [], duration_patterns := [], bot_health_metrics := [] }

/-- A stale `performance_rankings` row for a pair absent from the trade set. -/
def staleRow : PerfRankRow :=
  { ranking_type := "by_pair", entity_name := "DOGE/USD", entity_type := "trading_pair",
    profit_ratio_val := 0, profit_pct := 1, profit_abs := 1, trade_count := 1,
    win_rate := 1, avg_duration_minutes := 0, max_profit_pct := 1, min_profit_pct := 1,
    total_volume := 100, rank_position := 1, analysis_date := 0 }

/-! ### Claim theorems -/

/-- C10: when the new-trade detection query itself raises, the cycle reports
`false` (as if no new trades existed), creates no snapshot, writes nothing
and leaves the watermark unchanged, in both variants. -/
theorem detection_error_noop (sq : ℚ → ℚ) (now : Nat) (failAt : Option (Fin 8 × String))
    (db : DB) (wm : Nat) (dbf : DBF) (wmf : Nat) :
    check_for_new_trades sq now true failAt db wm = (db, wm, false) ∧
    check_for_new_trades_fixed sq now true failAt dbf wmf = (dbf, wmf, false) :=
  ⟨rfl, rfl⟩

/-- C8: the duration buckets of `update_duration_patterns`: at most 60
minutes is `scalp`, up to 480 `short_term`, up to 1440 `day_trade`, above
that `swing_trade`; including the concrete values and boundaries named by
the specification. -/
theorem duration_bucketing (a b c d : ℚ) (ha : a ≤ 60) (hb : 60 < b ∧ b ≤ 480)
    (hc : 480 < c ∧ c ≤ 1440) (hd : 1440 < d) :
    durationCategory a = "scalp" ∧ durationCategory b = "short_term" ∧
    durationCategory c = "day_trade" ∧ durationCategory d = "swing_trade" ∧
    durationCategory 30 = "scalp" ∧ durationCategory 200 = "short_term" ∧
    durationCategory 1000 = "day_trade" ∧ durationCategory 2000 = "swing_trade" ∧
    durationCategory 60 = "scalp" ∧ durationCategory 61 = "short_term" ∧
    durationCategory 480 = "short_term" ∧ durationCategory 1440 = "day_trade" := by
  obtain ⟨hb1, hb2⟩ := hb
  obtain ⟨hc1, hc2⟩ := hc
  refine ⟨?_, ?_, ?_, ?_, by decide, by decide, by decide, by decide, by decide,
    by decide, by decide, by decide⟩ <;>
    · unfold durationCategory
      split_ifs <;> first | rfl | linarith

/-- Witness for `duration_bucketing` at the specification's concrete inputs. -/
theorem duration_bucketing_witness :
    ((30 : ℚ) ≤ 60 ∧ (60 < (200 : ℚ) ∧ (200 : ℚ) ≤ 480) ∧
      (480 < (1000 : ℚ) ∧ (1000 : ℚ) ≤ 1440) ∧ 1440 < (2000 : ℚ)) ∧
    durationCategory 30 = "scalp" ∧ durationCategory 2000 = "swing_trade" := by
  refine ⟨⟨by norm_num, ⟨by norm_num, by norm_num⟩, ⟨by norm_num, by norm_num⟩, by norm_num⟩, ?_, ?_⟩
  · exact (duration_bucketing 30 200 1000 2000 (by norm_num) ⟨by norm_num, by norm_num⟩
      ⟨by norm_num, by norm_num⟩ (by norm_num)).2.2.2.2.1
  · exact (duration_bucketing 30 200 1000 2000 (by norm_num) ⟨by norm_num, by norm_num⟩
      ⟨by norm_num, by norm_num⟩ (by norm_num)).2.2.2.1

/-- C9: the health status decision of `update_bot_health_metrics` is
`HEALTHY` exactly when win rate is at least 0.7 and mean profit at least
0.5, `WARNING` exactly when not `HEALTHY` but win rate at least 0.5 and
mean profit nonnegative, `CRITICAL` otherwise; and the `worst_loss` gauge is
tagged `HEALTHY` exactly when the worst loss exceeds -20. -/
theorem health_status_thresholds (wr ap w : ℚ) :
    (healthStatus wr ap = "HEALTHY" ↔ 7/10 ≤ wr ∧ 1/2 ≤ ap) ∧
    (healthStatus wr ap = "WARNING" ↔ ¬(7/10 ≤ wr ∧ 1/2 ≤ ap) ∧ (1/2 ≤ wr ∧ 0 ≤ ap)) ∧
    (healthStatus wr ap = "CRITICAL" ↔ ¬(7/10 ≤ wr ∧ 1/2 ≤ ap) ∧ ¬(1/2 ≤ wr ∧ 0 ≤ ap)) ∧
    (worstLossStatus w = "HEALTHY" ↔ -20 < w) ∧
    (worstLossStatus w = "WARNING" ↔ ¬ (-20 < w)) := by
  unfold healthStatus worstLossStatus
  refine ⟨?_, ?_, ?_, ?_, ?_⟩ <;> split_ifs <;> simp_all

/-- C7: the three guarded quotients evaluate to 0 rather than failing when
their denominator is zero or absent: profit factor on zero losing volume,
both stop-loss effectiveness scores on zero triggered count, volatility on
at most one sample. -/
theorem division_guards_default_zero (g : List Trade) (sq : ℚ → ℚ) (xs : List ℚ) (now : Nat)
    (h1 : losingVolume g = 0) (h2 : slTriggeredCount g = 0) (h3 : xs.length ≤ 1) :
    profit_factor g = 0 ∧ sl_effectiveness g = 0 ∧ volatility sq xs = 0 ∧
    (riskRowFinal now g).stop_loss_effectiveness_pct = some 0 := by
  refine ⟨?_, ?_, ?_, ?_⟩
  · simp [profit_factor, h1]
  · simp [sl_effectiveness, h2]
  · unfold volatility
    rw [if_neg (by omega)]
  · simp [riskRowFinal, h2]

/-- Witness for `division_guards_default_zero` on the empty group. -/
theorem division_guards_default_zero_witness :
    (losingVolume [] = 0 ∧ slTriggeredCount [] = 0 ∧ ([] : List ℚ).length ≤ 1) ∧
    profit_factor [] = 0 ∧ sl_effectiveness [] = 0 ∧ volatility (fun _ => 0) [] = 0 ∧
    (riskRowFinal 0 []).stop_loss_effectiveness_pct = some 0 :=
  ⟨⟨by decide, by decide, by decide⟩,
    division_guards_default_zero [] (fun _ => 0) [] 0 (by decide) (by decide) (by decide)⟩

/-- C5: reading the watermark yields 0 when the query raises and 0 when no
completed snapshot exists; on the engine-maintained snapshot log (completed
checkpoint values non-decreasing in insertion order) it yields the
`last_trade_id` of the most recent completed snapshot. -/
theorem watermark_read_spec (snaps : List Snapshot)
    (hmono : (completedIds snaps).Pairwise (· ≤ ·)) :
    get_last_processed_trade_id true snaps = 0 ∧
    (completedIds snaps = [] → get_last_processed_trade_id false snaps = 0) ∧
    get_last_processed_trade_id false snaps = (completedIds snaps).getLastD 0 := by
  refine ⟨rfl, ?_, ?_⟩
  · intro h
    unfold get_last_processed_trade_id
    rw [h]
    rfl
  · unfold get_last_processed_trade_id
    cases hl : completedIds snaps with
    | nil => rfl
    | cons a t =>
      rw [hl] at hmono
      show (match (a :: t).max? with | some v => v | none => 0) = (a :: t).getLastD 0
      have hmax : (a :: t).max? = some (t.foldl max a) := rfl
      rw [hmax, List.getLastD_cons]
      exact foldl_max_sorted t a (List.pairwise_cons.mp hmono).1 (List.pairwise_cons.mp hmono).2

/-- Witness for `watermark_read_spec` on a small concrete snapshot log. -/
theorem watermark_read_spec_witness :
    (completedIds [⟨"automated_analysis", 1, "completed", 3, none⟩,
        ⟨"automated_analysis", 1, "failed", 99, some "boom"⟩,
        ⟨"automated_analysis", 2, "completed", 7, none⟩]).Pairwise (· ≤ ·) ∧
    get_last_processed_trade_id false
      [⟨"automated_analysis", 1, "completed", 3, none⟩,
        ⟨"automated_analysis", 1, "failed", 99, some "boom"⟩,
        ⟨"automated_analysis", 2, "completed", 7, none⟩] =
      (completedIds [⟨"automated_analysis", 1, "completed", 3, none⟩,
        ⟨"automated_analysis", 1, "failed", 99, some "boom"⟩,
        ⟨"automated_analysis", 2, "completed", 7, none⟩]).getLastD 0 :=
  ⟨by decide,
    (watermark_read_spec [⟨"automated_analysis", 1, "completed", 3, none⟩,
      ⟨"automated_analysis", 1, "failed", 99, some "boom"⟩,
      ⟨"automated_analysis", 2, "completed", 7, none⟩] (by decide)).2.2⟩

/-- C4: with the watermark equal to the maximum closed trade identifier, a
cycle is a no-op in the final variant: it reports `false`, opens no write,
creates no snapshot and changes nothing, and a second run returns the same
unchanged state. -/
theorem noop_cycle_identity (sq : ℚ → ℚ) (now : Nat) (failAt : Option (Fin 8 × String))
    (db : DB) (wm : Nat) (h : wm = maxClosedId db.trades) :
    check_for_new_trades sq now false failAt db wm = (db, wm, false) ∧
    check_for_new_trades sq now false failAt
        (check_for_new_trades sq now false failAt db wm).1
        (check_for_new_trades sq now false failAt db wm).2.1 = (db, wm, false) := by
  have hnil : db.trades.filter (fun t => decide (wm < t.trade_id) && !t.is_open) = [] := by
    rw [List.filter_eq_nil_iff]
    intro t ht hcon
    rw [Bool.and_eq_true] at hcon
    have h1 : wm < t.trade_id := of_decide_eq_true hcon.1
    have h2 : t.is_open = false := by simpa using hcon.2
    have h3 := closed_le_maxClosedId ht h2
    omega
  have h1 : check_for_new_trades sq now false failAt db wm = (db, wm, false) := by
    unfold check_for_new_trades
    simp [hnil]
  exact ⟨h1, by rw [h1]; exact h1⟩

/-- Witness for `noop_cycle_identity`: one closed trade already covered by
the watermark. -/
theorem noop_cycle_identity_witness :
    (1 = maxClosedId (emptyTablesDB [sampleTrade]).trades) ∧
    check_for_new_trades (fun _ => 0) 0 false none (emptyTablesDB [sampleTrade]) 1 =
      (emptyTablesDB [sampleTrade], 1, false) :=
  ⟨by decide,
    (noop_cycle_identity (fun _ => 0) 0 none (emptyTablesDB [sampleTrade]) 1 (by decide)).1⟩

/-- One closed `BTC/USD` trade of the specification's formula scenario. -/
def scenarioTrade (i : Nat) (pp : ℚ) : Trade :=
  { trade_id := i, pair := "BTC/USD", base_currency := "BTC", quote_currency := "USD",
    strategy := "s", stake_amount := 100, profit_ratio_val := pp / 100, profit_pct := pp,
    profit_abs := pp, trade_duration := some 10, open_date := none, close_date := none,
    exit_reason := "roi", stop_loss_pct := none, is_open := false }

/-- The three closed trades of the formula scenario: profit percentages
+5, -3, +2 at stake 100 each. -/
def scenarioTrades : List Trade :=
  [scenarioTrade 1 5, scenarioTrade 2 (-3), scenarioTrade 3 2]

/-- C6: a trade counts as a win exactly when its `profit_pct` is strictly
positive (zero is a loss), the win rate is the fraction of strictly
positive trades, and on the scenario trades {+5, -3, +2} the pair row has
win rate 2/3 and mean profit 4/3. -/
theorem win_strictly_positive (t : Trade) (ts : List Trade) (sq : ℚ → ℚ) :
    (winInd t = 1 ↔ 0 < t.profit_pct) ∧
    (winInd t = 0 ↔ ¬ 0 < t.profit_pct) ∧
    winRate ts =
      ((ts.filter (fun x => decide (0 < x.profit_pct))).length : ℚ) / (ts.length : ℚ) ∧
    (pairRowsFinal sq 0 scenarioTrades).map (fun r => (r.pair, r.win_rate, r.avg_profit_pct)) =
      [("BTC/USD", 2/3, 4/3)] := by
  refine ⟨?_, ?_, ?_, ?_⟩
  · unfold winInd
    split_ifs with h <;> simp [h]
  · unfold winInd
    split_ifs with h <;> simp [h]
  · unfold winRate avgQ
    rw [sum_winInd, List.length_map]
  · with_unfolding_all rfl

lemma check_cases (sq : ℚ → ℚ) (now : Nat) (qe : Bool) (f : Option (Fin 8 × String))
    (db : DB) (wm : Nat) :
    (check_for_new_trades sq now qe f db wm).2.1 = wm ∨
    (qe = false ∧ f = none ∧ wm < maxClosedId db.trades ∧
      (check_for_new_trades sq now qe f db wm).2.1 = maxClosedId db.trades ∧
      (check_for_new_trades sq now qe f db wm).1.snapshots = db.snapshots ++
        [completedSnap
          (db.trades.filter (fun t => decide (wm < t.trade_id) && !t.is_open)).length
          (maxClosedId db.trades)]) := by
  cases qe with
  | true => exact Or.inl rfl
  | false =>
    by_cases hc :
        0 < (db.trades.filter (fun t => decide (wm < t.trade_id) && !t.is_open)).length
    · cases f with
      | some kf =>
        obtain ⟨k, msg⟩ := kf
        left
        unfold check_for_new_trades
        rw [if_neg (by simp), if_pos hc]
        rfl
      | none =>
        right
        have hlt : wm < maxClosedId db.trades := by
          obtain ⟨t, ht⟩ := List.exists_mem_of_length_pos hc
          have hmem := List.mem_filter.mp ht
          rw [Bool.and_eq_true] at hmem
          have h1 : wm < t.trade_id := of_decide_eq_true hmem.2.1
          have h2 : t.is_open = false := by simpa using hmem.2.2
          have h3 := closed_le_maxClosedId hmem.1 h2
          omega
        refine ⟨rfl, rfl, hlt, ?_, ?_⟩
        · unfold check_for_new_trades
          rw [if_neg (by simp), if_pos hc]
          rfl
        · unfold check_for_new_trades
          rw [if_neg (by simp), if_pos hc]
          show (modifyAt db.snapshots.length _
            (applyDerivs (derivsFinal sq now) 8
              { db with snapshots := db.snapshots ++
                [processingSnap _ (maxClosedId db.trades)] }).snapshots) = _
          rw [(applyDerivs_preserve sq now 8 _).1]
          exact modifyAt_append db.snapshots _ _
    · left
      unfold check_for_new_trades
      rw [if_neg (by simp), if_neg hc]

lemma step_wm_mono (s : Sys) (e : Event) : s.wm ≤ (step s e).wm := by
  cases e with
  | append ts => exact le_refl _
  | cycle sq now qe f =>
    rcases check_cases sq now qe f s.db s.wm with hc | hc
    · exact le_of_eq hc.symm
    · exact le_of_lt (lt_of_lt_of_le hc.2.2.1 (le_of_eq hc.2.2.2.1.symm))

/-- C3: over any event sequence the checkpoint is monotonically
non-decreasing, and whenever one step changes it, that step is a cycle with
no query error and no derivation failure whose resulting snapshot log ends
in a `completed` snapshot carrying the new checkpoint value, which is
strictly larger. -/
theorem checkpoint_monotonicity (s : Sys) (evs : List Event) (s2 : Sys) (e : Event)
    (h : ¬ (step s2 e).wm = s2.wm) :
    s.wm ≤ (run s evs).wm ∧
    s2.wm < (step s2 e).wm ∧
    ∃ snap, (step s2 e).db.snapshots.getLast? = some snap ∧
      snap.status = "completed" ∧ snap.last_trade_id = (step s2 e).wm ∧
      ∃ sq now, e = Event.cycle sq now false none := by
  constructor
  · induction evs generalizing s with
    | nil => exact le_refl _
    | cons ev evs ih => exact le_trans (step_wm_mono s ev) (ih (step s ev))
  · cases e with
    | append ts => exact absurd rfl h
    | cycle sq now qe f =>
      rcases check_cases sq now qe f s2.db s2.wm with hc | hc
      · exact absurd hc h
      · obtain ⟨hqe, hf, hlt, hwm, hsnap⟩ := hc
        subst hqe
        subst hf
        constructor
        · show s2.wm < (check_for_new_trades sq now false none s2.db s2.wm).2.1
          rw [hwm]
          exact hlt
        · have hg : (check_for_new_trades sq now false none s2.db s2.wm).1.snapshots.getLast? =
              some (completedSnap
                (s2.db.trades.filter
                  (fun t => decide (s2.wm < t.trade_id) && !t.is_open)).length
                (maxClosedId s2.db.trades)) := by
            rw [hsnap]
            exact List.getLast?_concat _
          exact ⟨_, hg, rfl, hwm.symm, sq, now, rfl⟩

/-- The engine state used by concrete checkpoint evaluations. -/
def wSys : Sys := { db := emptyTablesDB [sampleTrade], wm := 0 }

/-- A failure-free cycle event used by concrete checkpoint evaluations. -/
def wEvent : Event := Event.cycle (fun _ => 0) 0 false none

/-- Witness for `checkpoint_monotonicity`: a cycle over one fresh closed
trade advances the checkpoint and appends a completed snapshot. -/
theorem checkpoint_monotonicity_witness :
    (¬ (step wSys wEvent).wm = wSys.wm) ∧
    (wSys.wm ≤ (run wSys []).wm ∧ wSys.wm < (step wSys wEvent).wm ∧
      ∃ snap, (step wSys wEvent).db.snapshots.getLast? = some snap ∧
        snap.status = "completed" ∧ snap.last_trade_id = (step wSys wEvent).wm ∧
        ∃ sq now, wEvent = Event.cycle sq now false none) :=
  ⟨by decide, checkpoint_monotonicity wSys [] wSys wEvent (by decide)⟩

/-- C1 (amended): when derivation `k` raises during a cycle, the snapshot
is marked `failed` carrying the error message and the watermark is not
advanced; but the commit that persists the failed status also commits every
write of the `k` derivations that ran before the failure (partial analytics
writes become visible), and the exception is swallowed inside the cycle, so
the caller sees the same `true` outcome as a successful run. -/
theorem failed_cycle_behavior (sq : ℚ → ℚ) (now : Nat) (db : DB) (wm : Nat) (k : Fin 8)
    (msg : String)
    (h : 0 < (db.trades.filter (fun t => decide (wm < t.trade_id) && !t.is_open)).length) :
    let r := check_for_new_trades sq now false (some (k, msg)) db wm
    let cnt := (db.trades.filter (fun t => decide (wm < t.trade_id) && !t.is_open)).length
    let w := applyDerivs (derivsFinal sq now) k.1
      { db with snapshots := db.snapshots ++ [processingSnap cnt (maxClosedId db.trades)] }
    r.2.1 = wm ∧ r.2.2 = true ∧
    r.1.snapshots = db.snapshots ++ [failedSnap cnt (maxClosedId db.trades) msg] ∧
    r.1.trades = db.trades ∧
    r.1.performance_rankings = w.performance_rankings ∧
    r.1.risk_metrics = w.risk_metrics ∧
    r.1.strategy_performance = w.strategy_performance ∧
    r.1.timing_analysis = w.timing_analysis ∧
    r.1.pair_analytics = w.pair_analytics ∧
    r.1.stop_loss_analytics = w.stop_loss_analytics ∧
    r.1.duration_patterns = w.duration_patterns ∧
    r.1.bot_health_metrics = w.bot_health_metrics := by
  intro r cnt w
  have hch : check_for_new_trades sq now false (some (k, msg)) db wm =
      (let p := process_new_trades sq now (some (k, msg)) db wm cnt
       (p.1, p.2, true)) := by
    unfold check_for_new_trades
    rw [if_neg (by simp), if_pos h]
  have hsnaps : r.1.snapshots =
      db.snapshots ++ [failedSnap cnt (maxClosedId db.trades) msg] := by
    show (check_for_new_trades sq now false (some (k, msg)) db wm).1.snapshots = _
    rw [hch]
    show modifyAt db.snapshots.length
        (fun s => { s with status := "failed", error_message := some msg })
        (applyDerivs (derivsFinal sq now) k.1
          { db with snapshots :=
              db.snapshots ++ [processingSnap cnt (maxClosedId db.trades)] }).snapshots = _
    rw [(applyDerivs_preserve sq now k.1 _).1]
    exact modifyAt_append db.snapshots _ _
  have htr : r.1.trades = db.trades := by
    show (check_for_new_trades sq now false (some (k, msg)) db wm).1.trades = _
    rw [hch]
    show (applyDerivs (derivsFinal sq now) k.1
      { db with snapshots :=
          db.snapshots ++ [processingSnap cnt (maxClosedId db.trades)] }).trades = _
    rw [(applyDerivs_preserve sq now k.1 _).2]
  refine ⟨?_, ?_, hsnaps, htr, ?_, ?_, ?_, ?_, ?_, ?_, ?_, ?_⟩ <;>
    · show _ = _
      rw [show r = check_for_new_trades sq now false (some (k, msg)) db wm from rfl, hch]
      try rfl

/-- Witness for `failed_cycle_behavior`: derivation 1 raises after
derivation 0 already wrote. -/
theorem failed_cycle_behavior_witness :
    (0 < ((emptyTablesDB [sampleTrade]).trades.filter
        (fun t => decide (0 < t.trade_id) && !t.is_open)).length) ∧
    ((check_for_new_trades (fun _ => 0) 0 false (some (1, "boom"))
        (emptyTablesDB [sampleTrade]) 0).2.1 = 0 ∧
      (check_for_new_trades (fun _ => 0) 0 false (some (1, "boom"))
        (emptyTablesDB [sampleTrade]) 0).2.2 = true) :=
  ⟨by decide,
    ⟨(failed_cycle_behavior (fun _ => 0) 0 (emptyTablesDB [sampleTrade]) 0 1 "boom"
        (by decide)).1,
      (failed_cycle_behavior (fun _ => 0) 0 (emptyTablesDB [sampleTrade]) 0 1 "boom"
        (by decide)).2.1⟩⟩

/-- Counterexample to C1 as stated: with one closed trade and derivation 1
injected to raise "boom", the cycle leaves the watermark at 0 and marks the
snapshot `failed` with the message, but the committed `performance_rankings`
table no longer reflects the pre-cycle state (the write of derivation 0 is
visible), and the failure is not visible to the caller, which is told `true`
exactly as on success. -/
theorem failed_cycle_partial_writes_counterexample :
    (check_for_new_trades (fun _ => 0) 0 false (some (1, "boom"))
        (emptyTablesDB [sampleTrade]) 0).2.1 = 0 ∧
    (check_for_new_trades (fun _ => 0) 0 false (some (1, "boom"))
        (emptyTablesDB [sampleTrade]) 0).2.2 = true ∧
    (check_for_new_trades (fun _ => 0) 0 false (some (1, "boom"))
        (emptyTablesDB [sampleTrade]) 0).1.snapshots.map
        (fun s => (s.status, s.error_message)) = [("failed", some "boom")] ∧
    ¬ (check_for_new_trades (fun _ => 0) 0 false (some (1, "boom"))
        (emptyTablesDB [sampleTrade]) 0).1.performance_rankings =
      (emptyTablesDB [sampleTrade]).performance_rankings := by
  decide

lemma map_map_id {κ ρ : Type} (mk : κ → ρ) (ke : ρ → κ) (hkey : ∀ k, ke (mk k) = k) :
    ∀ l : List κ, (l.map mk).map ke = l := by
  intro l
  induction l with
  | nil => rfl
  | cons a t ih => simp [hkey, ih]

/-- C2 (amended, final variant): after a successful cycle of the final
variant each derived table holds exactly one row per group key of the
current full recomputation — the by-pair rankings' entities are a
permutation of the distinct closed pairs, there is exactly one overall risk
row, and strategy, pair, stop-loss, duration and health rows list exactly
their distinct current group keys, which carry no duplicates. -/
theorem final_cycle_replace_semantics (sq : ℚ → ℚ) (now : Nat) (db : DB) (wm : Nat)
    (h : 0 < (db.trades.filter (fun t => decide (wm < t.trade_id) && !t.is_open)).length) :
    let r := check_for_new_trades sq now false none db wm
    let closed := closedTrades db.trades
    r.2.2 = true ∧
    List.Perm ((r.1.performance_rankings.filter
        (fun x => decide (x.ranking_type = "by_pair"))).map PerfRankRow.entity_name)
      (groupKeys Trade.pair closed) ∧
    (groupKeys Trade.pair closed).Nodup ∧
    (r.1.risk_metrics.filter (fun x => decide (x.metric_type = "overall"))).length = 1 ∧
    r.1.strategy_performance.map StratRow.strategy_name = groupKeys Trade.strategy closed ∧
    (groupKeys Trade.strategy closed).Nodup ∧
    r.1.timing_analysis.map TimingRow.time_category = ["overall"] ∧
    r.1.pair_analytics.map (fun x => (x.pair, x.base_currency, x.quote_currency)) =
      groupKeys pairTriple closed ∧
    (groupKeys pairTriple closed).Nodup ∧
    r.1.stop_loss_analytics.map SLRow.pair =
      groupKeys Trade.pair (closed.filter (fun t => t.stop_loss_pct.isSome)) ∧
    (groupKeys Trade.pair (closed.filter (fun t => t.stop_loss_pct.isSome))).Nodup ∧
    r.1.duration_patterns.map DurRow.duration_category =
      groupKeys durKey (closed.filter (fun t => t.trade_duration.isSome)) ∧
    (groupKeys durKey (closed.filter (fun t => t.trade_duration.isSome))).Nodup ∧
    r.1.bot_health_metrics.map HealthRow.metric_name =
      ["overall_win_rate", "avg_profit_pct", "total_trades", "total_profit",
        "worst_loss", "best_win"] := by
  intro r closed
  have hch : check_for_new_trades sq now false none db wm =
      (let p := process_new_trades sq now none db wm
        (db.trades.filter (fun t => decide (wm < t.trade_id) && !t.is_open)).length
       (p.1, p.2, true)) := by
    unfold check_for_new_trades
    rw [if_neg (by simp), if_pos h]
  have hcl : 0 < (closedTrades db.trades).length := by
    obtain ⟨t, ht⟩ := List.exists_mem_of_length_pos h
    have hmem := List.mem_filter.mp ht
    rw [Bool.and_eq_true] at hmem
    have h2 : t.is_open = false := by simpa using hmem.2.2
    exact List.length_pos_of_mem (List.mem_filter.mpr ⟨hmem.1, by simp [h2]⟩)
  refine ⟨?_, ?_, List.nodup_dedup _, ?_, ?_, List.nodup_dedup _, ?_, ?_,
    List.nodup_dedup _, ?_, List.nodup_dedup _, ?_, List.nodup_dedup _, ?_⟩
  · show (check_for_new_trades sq now false none db wm).2.2 = true
    rw [hch]
  · show List.Perm (((check_for_new_trades sq now false none db wm).1.performance_rankings.filter
        (fun x => decide (x.ranking_type = "by_pair"))).map PerfRankRow.entity_name)
      (groupKeys Trade.pair (closedTrades db.trades))
    rw [hch]
    show List.Perm (((db.performance_rankings.filter
          (fun x => !decide (x.ranking_type = "by_pair"))
        ++ perfRankRows now (closedTrades db.trades)).filter
          (fun x => decide (x.ranking_type = "by_pair"))).map PerfRankRow.entity_name) _
    rw [List.filter_append, List.filter_filter,
      show (fun a : PerfRankRow => decide (a.ranking_type = "by_pair")
          && !decide (a.ranking_type = "by_pair")) = fun _ => false from
        funext fun a => Bool.and_not_self _,
      List.filter_false, List.nil_append]
    show List.Perm (((rankRows now 1 (sortBy
        (fun a b => decide (avgQ (b.2.map Trade.profit_pct) ≤ avgQ (a.2.map Trade.profit_pct)))
        ((groupKeys Trade.pair (closedTrades db.trades)).map
          (fun p => (p, groupOf Trade.pair (closedTrades db.trades) p))))).filter
        (fun x => decide (x.ranking_type = "by_pair"))).map
        PerfRankRow.entity_name) _
    rw [List.filter_eq_self.mpr
        (fun x hx => decide_eq_true (rankRows_by_pair now 1 _ x hx)),
      rankRows_map_entity]
    refine ((sortBy_perm _ _).map Prod.fst).trans ?_
    rw [map_map_id (fun p => (p, groupOf Trade.pair (closedTrades db.trades) p))
      Prod.fst (fun p => rfl)]
  · show ((check_for_new_trades sq now false none db wm).1.risk_metrics.filter
        (fun x => decide (x.metric_type = "overall"))).length = 1
    rw [hch]
    show ((db.risk_metrics.filter (fun x => !decide (x.metric_type = "overall"))
        ++ [riskRowFinal now (closedTrades db.trades)]).filter
          (fun x => decide (x.metric_type = "overall"))).length = 1
    rw [List.filter_append, List.filter_filter,
      show (fun a : RiskRow => decide (a.metric_type = "overall")
          && !decide (a.metric_type = "overall")) = fun _ => false from
        funext fun a => Bool.and_not_self _,
      List.filter_false, List.nil_append]
    rfl
  · show (check_for_new_trades sq now false none db wm).1.strategy_performance.map
        StratRow.strategy_name = groupKeys Trade.strategy (closedTrades db.trades)
    rw [hch]
    show (stratRowsFinal now (closedTrades db.trades)).map StratRow.strategy_name = _
    exact map_map_id _ StratRow.strategy_name (fun s => rfl) _
  · show (check_for_new_trades sq now false none db wm).1.timing_analysis.map
        TimingRow.time_category = ["overall"]
    rw [hch]
    rfl
  · show (check_for_new_trades sq now false none db wm).1.pair_analytics.map
        (fun x => (x.pair, x.base_currency, x.quote_currency)) =
      groupKeys pairTriple (closedTrades db.trades)
    rw [hch]
    show (pairRowsFinal sq now (closedTrades db.trades)).map
        (fun x => (x.pair, x.base_currency, x.quote_currency)) = _
    exact map_map_id _ _ (fun k => rfl) _
  · show (check_for_new_trades sq now false none db wm).1.stop_loss_analytics.map
        SLRow.pair = groupKeys Trade.pair
          ((closedTrades db.trades).filter (fun t => t.stop_loss_pct.isSome))
    rw [hch]
    show (slRowsFinal now (closedTrades db.trades)).map SLRow.pair = _
    exact map_map_id _ SLRow.pair (fun p => rfl) _
  · show (check_for_new_trades sq now false none db wm).1.duration_patterns.map
        DurRow.duration_category = groupKeys durKey
          ((closedTrades db.trades).filter (fun t => t.trade_duration.isSome))
    rw [hch]
    show (durRowsFinal now (closedTrades db.trades)).map DurRow.duration_category = _
    exact map_map_id _ DurRow.duration_category (fun c => rfl) _
  · show (check_for_new_trades sq now false none db wm).1.bot_health_metrics.map
        HealthRow.metric_name = _
    rw [hch]
    show (botHealthRows now (closedTrades db.trades)).map HealthRow.metric_name = _
    unfold botHealthRows
    rw [if_pos hcl]
    rfl

/-- Witness for `final_cycle_replace_semantics` on one fresh closed trade. -/
theorem final_cycle_replace_semantics_witness :
    (0 < ((emptyTablesDB [sampleTrade]).trades.filter
        (fun t => decide (0 < t.trade_id) && !t.is_open)).length) ∧
    (check_for_new_trades (fun _ => 0) 0 false none (emptyTablesDB [sampleTrade]) 0).2.2
      = true ∧
    (check_for_new_trades (fun _ => 0) 0 false none
        (emptyTablesDB [sampleTrade]) 0).1.bot_health_metrics.map HealthRow.metric_name =
      ["overall_win_rate", "avg_profit_pct", "total_trades", "total_profit",
        "worst_loss", "best_win"] := by
  have H := final_cycle_replace_semantics (fun _ => 0) 0 (emptyTablesDB [sampleTrade]) 0
    (by decide)
  exact ⟨by decide, H.1, H.2.2.2.2.2.2.2.2.2.2.2.2.2⟩

/-- Counterexample to C2 as stated: in the fixed variant a successful cycle
over one closed `BTC/USD` trade leaves the pre-existing `performance_rankings`
row for `DOGE/USD` in place even though `DOGE/USD` appears in no closed
trade — `INSERT OR REPLACE` without a prior `DELETE` retains stale group
keys. -/
theorem fixed_cycle_stale_row_counterexample :
    (check_for_new_trades_fixed (fun _ => 0) 0 false none
        (initialDBF [sampleTrade] [staleRow]) 0).2.2 = true ∧
    (check_for_new_trades_fixed (fun _ => 0) 0 false none
        (initialDBF [sampleTrade] [staleRow]) 0).1.snapshots.map Snapshot.status =
      ["completed"] ∧
    ¬ "DOGE/USD" ∈ (closedTrades (check_for_new_trades_fixed (fun _ => 0) 0 false none
        (initialDBF [sampleTrade] [staleRow]) 0).1.trades).map Trade.pair ∧
    ((check_for_new_trades_fixed (fun _ => 0) 0 false none
        (initialDBF [sampleTrade] [staleRow]) 0).1.performance_rankings.filter
      (fun x => decide (x.ranking_type = "by_pair" ∧ x.entity_name = "DOGE/USD"))).length
      = 1 := by
  decide

end TradingAnalytics
